import Mathlib

/-!
Verification development for the neural style-transfer core of the repository
(`style_transfer.py`).  The Python source is shallowly embedded below:

* `Tensor α` models a `torch.Tensor` of shape `(n, c, h, w)` with scalar
  type `α` (a parameter: `ℚ` is the idealized-float instantiation used for the
  numeric claims, `Flt` adds a non-finite value to model NaN/Inf behaviour).
* `gram_matrix` embeds the source's `gram_matrix` (view as `(c, h*w)` then
  `torch.mm` with the transpose).
* `PILImage`/`load_image` embed the image loader, including torchvision's
  `Resize(int)` semantics (smaller edge matched to the given size).
* `StyleTransferModel`/`run_style_transfer` embed the extractor wrapper and
  the optimization loop.  The pretrained VGG19 layers, the autograd gradient
  and the Adam update are external dependencies of the source and enter the
  embedding as opaque parameters (`Module.f`, `Autodiff`).
-/

namespace StyleTransfer

/-- A `torch.Tensor` of shape `(n, c, h, w)`: batch, channels, height, width,
row-major semantics captured by the indexed access function. -/
structure Tensor (α : Type) where
  n : Nat
  c : Nat
  h : Nat
  w : Nat
  data : Fin n → Fin c → Fin h → Fin w → α

variable {α : Type}

/-- Access at batch index 0 (out-of-range batch yields a junk `0`; the source
only ever forms batch-1 tensors where this branch is unreachable). -/
def Tensor.at0 [Zero α] (t : Tensor α) (i : Fin t.c) (y : Fin t.h) (x : Fin t.w) : α :=
  if hn : 0 < t.n then t.data ⟨0, hn⟩ i y x else 0

/-- The source's `tensor.view(n_filters, h * w)`: reinterpret the batch-1
buffer as a `(c, h*w)` matrix; flat spatial index `k` decodes row-major to
`(k / w, k % w)`. -/
def Tensor.view2 [Zero α] (t : Tensor α) : Matrix (Fin t.c) (Fin (t.h * t.w)) α :=
  fun i k => t.at0 i k.divNat k.modNat

/-- Matrix product over a raw scalar type (`torch.mm`); written out because the
scalar parameter is not assumed to be a semiring (the `Flt` instantiation,
with NaN, is not one). -/
def mmul [AddCommMonoid α] [Mul α] {m n p : Nat}
    (A : Matrix (Fin m) (Fin n) α) (B : Matrix (Fin n) (Fin p) α) :
    Matrix (Fin m) (Fin p) α :=
  fun i j => ∑ k, A i k * B k j

/-- `gram_matrix` from the source: read the size, view as `(c, h*w)`, multiply
with the transpose.  No normalization by element count. -/
def gram_matrix [AddCommMonoid α] [Mul α] (t : Tensor α) :
    Matrix (Fin t.c) (Fin t.c) α :=
  mmul t.view2 (Matrix.transpose t.view2)

/-- Flat spatial sums decode to double sums over height and width: the
row-major `view` is a genuine flattening. -/
theorem sum_flat_eq_sum_spatial [AddCommMonoid α] (h w : Nat)
    (F : Fin h → Fin w → α) :
    ∑ k : Fin (h * w), F k.divNat k.modNat = ∑ y : Fin h, ∑ x : Fin w, F y x := by
  rw [← Fintype.sum_prod_type',
    ← Equiv.sum_comp (finProdFinEquiv.symm) (fun p : Fin h × Fin w => F p.1 p.2)]
  simp [finProdFinEquiv]

/-- Gram entries are unnormalized channel inner products over all spatial
positions. -/
theorem gram_matrix_entry [AddCommMonoid α] [Mul α] (t : Tensor α)
    (i j : Fin t.c) :
    gram_matrix t i j = ∑ y : Fin t.h, ∑ x : Fin t.w, t.at0 i y x * t.at0 j y x := by
  unfold gram_matrix mmul
  simpa using sum_flat_eq_sum_spatial t.h t.w (fun y x => t.at0 i y x * t.at0 j y x)

/-! ## Image loading (`load_image`, source lines 9-17) -/

/-- A decoded PIL image: channel count (1 = L, 3 = RGB, 4 = RGBA), height,
width, and pixel intensities in the 8-bit range `[0, 255]`. -/
structure PILImage (α : Type) where
  c : Nat
  h : Nat
  w : Nat
  pix : Fin c → Fin h → Fin w → α

/-- Input handed to `load_image`: either a decoded image or something that is
not one (the source performs no byte decoding itself; a non-image argument
reaches the torchvision transform unchecked). -/
inductive PILInput (α : Type) where
  | image (img : PILImage α)
  | notImage

/-- Error vocabulary for the embedded pipeline.  `typeError` is what
torchvision's transform raises on a non-PIL input.  `decodeError`,
`shapeError` and `divergenceError` are the spec's taxonomy; they are included
so the spec's claims are statable, and the embedded code never produces
them (no such classes exist in the source). -/
inductive STError where
  | typeError
  | decodeError
  | shapeError
  | divergenceError
deriving DecidableEq

/-- Output dimensions `(h, w)` of torchvision `Resize(size)` with an integer
`size`: the smaller edge is matched to `size` and the other edge scaled by the
same ratio with truncating division. -/
def resizeDims (size h w : Nat) : Nat × Nat :=
  if w ≤ h then (size * h / w, size) else (size, size * w / h)

/-- Channelwise index-remapping resize.  Only the shape arithmetic and the
channelwise structure of the library's interpolation are relied on by the
source-level claims; the interpolation kernel itself (bilinear) is an external
library detail and is modelled by nearest-index lookup. -/
def resizePix [Zero α] (c h w nh nw : Nat)
    (pix : Fin c → Fin h → Fin w → α) : Fin c → Fin nh → Fin nw → α :=
  fun i y x =>
    if hb : y.val * h / nh < h ∧ x.val * w / nw < w then
      pix i ⟨y.val * h / nh, hb.1⟩ ⟨x.val * w / nw, hb.2⟩
    else 0

/-- `transforms.Resize(max_size)` on a PIL image. -/
def resizePIL [Zero α] (size : Nat) (img : PILImage α) : PILImage α :=
  { c := img.c
    h := (resizeDims size img.h img.w).1
    w := (resizeDims size img.h img.w).2
    pix := resizePix img.c img.h img.w _ _ img.pix }

/-- `transforms.Resize([sh, sw])` applied to a 4-D tensor: resizes the last
two dimensions exactly to the given shape. -/
def resizeTensor [Zero α] (sh sw : Nat) (t : Tensor α) : Tensor α :=
  { n := t.n, c := t.c, h := sh, w := sw
    data := fun b i => resizePix 1 t.h t.w sh sw (fun _ => t.data b i) 0 }

/-- The loader applied to an already-decoded image (this path never fails):
resize (smaller edge to `max_size`), `ToTensor` (scale to `[0,1]`, layout
`(c, h, w)`), keep the first three channels (`[:3, :, :]`), add a batch
dimension, then optionally resize exactly to `shape`. -/
def load_image_img [Zero α] [Div α] [NatCast α] (img : PILImage α)
    (max_size : Nat) (shape : Option (Nat × Nat)) : Tensor α :=
  let r := resizePIL max_size img
  let t : Tensor α :=
    { n := 1, c := min r.c 3, h := r.h, w := r.w
      data := fun _ i y x => r.pix (Fin.castLE (min_le_left r.c 3) i) y x / (255 : Nat) }
  match shape with
  | none => t
  | some (sh, sw) => resizeTensor sh sw t

/-- `load_image` from the source.  A non-image argument raises the underlying
library's `TypeError` when the transform is applied. -/
def load_image [Zero α] [Div α] [NatCast α] (input : PILInput α)
    (max_size : Nat) (shape : Option (Nat × Nat)) : Except STError (Tensor α) :=
  match input with
  | .notImage => .error .typeError
  | .image img => .ok (load_image_img img max_size shape)

/-! ## Feature extractor wrapper (`StyleTransferModel`, source lines 27-43) -/

/-- A network parameter: its (opaque) value and its autograd flag. -/
structure Param (α : Type) where
  value : α
  requires_grad : Bool

/-- One module of `vgg19(...).features`: its name (the dict key in
`vgg._modules`), its parameters, and its forward function.  The pretrained
convolution/pooling computations are external to the repository and are
opaque here. -/
structure Module (α : Type) where
  name : String
  params : List (Param α)
  f : Tensor α → Tensor α

/-- The wrapper: the pretrained feature stack plus the designated layer
names. -/
structure STModel (α : Type) where
  vgg : List (Module α)
  style_layers : List String
  content_layers : List String

/-- `StyleTransferModel.__init__`: load the pretrained features (in eval
mode; the modules' forward functions are already deterministic here), fix the
layer names, and set `requires_grad = False` on every parameter. -/
def STModel.init (pretrained : List (Module α)) : STModel α :=
  { vgg := pretrained.map fun m =>
      { m with params := m.params.map fun p => { p with requires_grad := false } }
    style_layers := ["0", "5", "10", "19", "28"]
    content_layers := ["21"] }

/-- `StyleTransferModel.forward`: thread `x` through the modules in order,
recording the activation after every module whose name is in
`style_layers + content_layers`. -/
def STModel.forward (M : STModel α) (x : Tensor α) : List (String × Tensor α) :=
  (M.vgg.foldl
    (fun (acc : Tensor α × List (String × Tensor α)) m =>
      let x' := m.f acc.1
      (x', if m.name ∈ M.style_layers ++ M.content_layers
            then acc.2 ++ [(m.name, x')] else acc.2))
    (x, [])).2

/-- Dictionary read `features[name]` (the source's dicts always contain the
keys it reads; a missing key would be a `KeyError`, modelled by a junk empty
tensor that no theorem relies on). -/
def getT [Zero α] (fs : List (String × Tensor α)) (l : String) : Tensor α :=
  (fs.lookup l).getD ⟨0, 0, 0, 0, fun b _ _ _ => b.elim0⟩

/-! ## Losses and the optimization loop (source lines 46-82) -/

/-- A square matrix of statically unknown size, for caching Gram matrices of
different layers in one dict. -/
structure SqMat (α : Type) where
  n : Nat
  m : Matrix (Fin n) (Fin n) α

/-- `gram_matrix` bundled with its size. -/
def gramS [AddCommMonoid α] [Mul α] (t : Tensor α) : SqMat α :=
  ⟨t.c, gram_matrix t⟩

/-- Dictionary read on the style-Gram cache. -/
def getG (gs : List (String × SqMat α)) (l : String) : SqMat α :=
  (gs.lookup l).getD ⟨0, fun i _ => i.elim0⟩

/-- `torch.mean((A - B) ** 2)` on same-shaped tensors (the source only ever
compares same-shaped tensors; a shape mismatch would be a library error,
modelled by a junk `0`). -/
def meanSqT [AddCommMonoid α] [Mul α] [Sub α] [Div α] [NatCast α]
    (A B : Tensor α) : α :=
  if hs : A.n = B.n ∧ A.c = B.c ∧ A.h = B.h ∧ A.w = B.w then
    (∑ b, ∑ i, ∑ y, ∑ x,
        (A.data b i y x -
          B.data (Fin.cast hs.1 b) (Fin.cast hs.2.1 i)
            (Fin.cast hs.2.2.1 y) (Fin.cast hs.2.2.2 x)) *
        (A.data b i y x -
          B.data (Fin.cast hs.1 b) (Fin.cast hs.2.1 i)
            (Fin.cast hs.2.2.1 y) (Fin.cast hs.2.2.2 x))) /
      ((A.n * A.c * A.h * A.w : Nat) : α)
  else 0

/-- `torch.mean((G - H) ** 2)` on Gram matrices. -/
def meanSqG [AddCommMonoid α] [Mul α] [Sub α] [Div α] [NatCast α]
    (G H : SqMat α) : α :=
  if hs : G.n = H.n then
    (∑ i, ∑ j,
        (G.m i j - H.m (Fin.cast hs i) (Fin.cast hs j)) *
        (G.m i j - H.m (Fin.cast hs i) (Fin.cast hs j))) /
      ((G.n * G.n : Nat) : α)
  else 0

/-- The autograd/optimizer boundary.  The source relies on
`total_loss.backward()` and `optim.Adam([generated], lr=0.02).step()`; both
are external library capabilities.  `gradOf g` is the gradient of the total
loss at `generated = g` (well-defined as a function of `g` alone because the
model and both reference activation sets are fixed for the session, and the
procedure is deterministic); `optStep` consumes the optimizer state, the
current `generated` and the gradient and returns the updated `generated`
and state. -/
structure Autodiff (α : Type) (OS : Type) where
  gradOf : Tensor α → Tensor α
  optInit : Tensor α → OS
  optStep : OS → Tensor α → Tensor α → Tensor α × OS

/-- The loop state: `generated` and the optimizer state are the mutable part;
the loaded tensors, the cached reference activations/Gram matrices are
carried to express the frame conditions; `losses` is a ghost trace recording
the `total_loss` value computed at each iteration. -/
structure LoopSt (α : Type) (OS : Type) where
  generated : Tensor α
  opt : OS
  content : Tensor α
  style : Tensor α
  content_features : List (String × Tensor α)
  style_grams : List (String × SqMat α)
  losses : List α

/-- One iteration of the loop body, source lines 60-77: fresh forward pass on
`generated`, content loss at layer `'21'`, style loss accumulated over the
style layers, weighted total, backward, optimizer step. -/
def loopStep [AddCommMonoid α] [Mul α] [Sub α] [Div α] [NatCast α] {OS : Type}
    (M : STModel α) (AD : Autodiff α OS) (content_weight style_weight : α)
    (s : LoopSt α OS) : LoopSt α OS :=
  let generated_features := M.forward s.generated
  let content_loss := meanSqT (getT generated_features "21") (getT s.content_features "21")
  let style_loss := M.style_layers.foldl
    (fun acc layer =>
      let gen_gram := gramS (getT generated_features layer)
      let style_gram := getG s.style_grams layer
      acc + meanSqG gen_gram style_gram)
    0
  let total_loss := content_weight * content_loss + style_weight * style_loss
  let g := AD.gradOf s.generated
  let p := AD.optStep s.opt s.generated g
  { s with generated := p.1, opt := p.2, losses := s.losses ++ [total_loss] }

/-- `squeeze(0)` followed by `ToPILImage` on the final tensor (the 8-bit
quantization of `ToPILImage` is an external library detail; the claims only
inspect the resulting dimensions). -/
def toPILImage [Zero α] (t : Tensor α) : PILImage α :=
  ⟨t.c, t.h, t.w, fun i y x => t.at0 i y x⟩

/-- `run_style_transfer`, source lines 46-82.  Source defaults:
`num_steps = 200`, `style_weight = 1e6`, `content_weight = 1`,
and `load_image` is called with its default `max_size = 512`. -/
def run_style_transfer [AddCommMonoid α] [Mul α] [Sub α] [Div α] [NatCast α]
    {OS : Type} (pretrained : List (Module α)) (AD : Autodiff α OS)
    (content_img style_img : PILInput α)
    (num_steps : Nat) (style_weight content_weight : α) :
    Except STError (PILImage α × List α) := do
  let content ← load_image content_img 512 none
  let style ← load_image style_img 512 (some (content.h, content.w))
  let generated := content
  let model := STModel.init pretrained
  let opt0 := AD.optInit generated
  let style_features := model.forward style
  let content_features := model.forward content
  let style_grams := model.style_layers.map fun layer =>
    (layer, gramS (getT style_features layer))
  let s0 : LoopSt α OS :=
    ⟨generated, opt0, content, style, content_features, style_grams, []⟩
  let sF := (List.range num_steps).foldl
    (fun s _ => loopStep model AD content_weight style_weight s) s0
  let final_img := toPILImage sF.generated
  return (final_img, sF.losses)

/-- The loop of source lines 60-77: `for step in range(num_steps)` folds the
body over the range (the body ignores the index variable). -/
def loopIter [AddCommMonoid α] [Mul α] [Sub α] [Div α] [NatCast α] {OS : Type}
    (M : STModel α) (AD : Autodiff α OS) (content_weight style_weight : α)
    (n : Nat) (s : LoopSt α OS) : LoopSt α OS :=
  (List.range n).foldl (fun s _ => loopStep M AD content_weight style_weight s) s

/-- The state the source has built when the loop is entered (lines 49-58),
on successfully loaded images. -/
def initSt [AddCommMonoid α] [Mul α] [Sub α] [Div α] [NatCast α] {OS : Type}
    (pretrained : List (Module α)) (AD : Autodiff α OS) (ci si : PILImage α) :
    LoopSt α OS :=
  let content := load_image_img ci 512 none
  let style := load_image_img si 512 (some (content.h, content.w))
  let model := STModel.init pretrained
  ⟨content, AD.optInit content, content, style, model.forward content,
    model.style_layers.map (fun layer => (layer, gramS (getT (model.forward style) layer))),
    []⟩

/-- Modelled from the spec: the total loss as a pure function of the current
`generated` tensor and the two frozen reference sets — `content_weight` times
the MSE of activations at the content layer plus `style_weight` times the sum
over style layers of the MSE between the fresh and the cached Gram matrix.
This is the refinement target the loop body is compared against. -/
def totalLossSpec [AddCommMonoid α] [Mul α] [Sub α] [Div α] [NatCast α]
    (M : STModel α) (content_weight style_weight : α)
    (cf : List (String × Tensor α)) (sg : List (String × SqMat α))
    (g : Tensor α) : α :=
  content_weight * meanSqT (getT (M.forward g) "21") (getT cf "21") +
    style_weight *
      (M.style_layers.map fun layer =>
        meanSqG (gramS (getT (M.forward g) layer)) (getG sg layer)).sum

/-- Two tensors have identical shape. -/
def sameShape (A B : Tensor α) : Prop :=
  A.n = B.n ∧ A.c = B.c ∧ A.h = B.h ∧ A.w = B.w

/-! ## A float model with a non-finite value

`ℚ` idealizes finite floats; `Flt` adds an absorbing non-finite value `nan`
(standing for NaN or ±Inf, which the source's arithmetic propagates and never
checks for). -/

inductive Flt where
  | val (q : ℚ)
  | nan
deriving DecidableEq

def Flt.add : Flt → Flt → Flt
  | .val x, .val y => .val (x + y)
  | _, _ => .nan

def Flt.mul : Flt → Flt → Flt
  | .val x, .val y => .val (x * y)
  | _, _ => .nan

def Flt.sub : Flt → Flt → Flt
  | .val x, .val y => .val (x - y)
  | _, _ => .nan

/-- Division; a zero divisor yields a non-finite result (±Inf or NaN). -/
def Flt.div : Flt → Flt → Flt
  | .val x, .val y => if y = 0 then .nan else .val (x / y)
  | _, _ => .nan

def Flt.isFinite : Flt → Bool
  | .val _ => true
  | .nan => false

instance : Zero Flt := ⟨.val 0⟩
instance : Add Flt := ⟨Flt.add⟩
instance : Mul Flt := ⟨Flt.mul⟩
instance : Sub Flt := ⟨Flt.sub⟩
instance : Div Flt := ⟨Flt.div⟩
instance : NatCast Flt := ⟨fun n => .val n⟩

instance : AddCommMonoid Flt where
  nsmul := nsmulRec
  add_assoc a b c := by
    cases a <;> cases b <;> cases c <;>
      first
      | rfl
      | exact congrArg Flt.val (add_assoc _ _ _)
  zero_add a := by
    cases a
    · exact congrArg Flt.val (zero_add _)
    · rfl
  add_zero a := by
    cases a
    · exact congrArg Flt.val (add_zero _)
    · rfl
  add_comm a b := by
    cases a <;> cases b <;>
      first
      | rfl
      | exact congrArg Flt.val (add_comm _ _)

/-! ## Concrete instances used by witnesses and counterexamples -/

/-- A shape-preserving, do-nothing autodiff/optimizer oracle over `ℚ`. -/
def trivialAD : Autodiff ℚ Unit :=
  ⟨fun g => g, fun _ => (), fun _ g _ => (g, ())⟩

/-- The same oracle over `Flt`. -/
def trivialADF : Autodiff Flt Unit :=
  ⟨fun g => g, fun _ => (), fun _ g _ => (g, ())⟩

/-- The spec's synthetic `(2, 2, 2)` activation (with batch dimension 1):
channel 0 holds `[[1,2],[3,4]]`, channel 1 holds `[[5,6],[7,8]]`. -/
def T0 : Tensor ℚ :=
  ⟨1, 2, 2, 2, fun _ i y x => ((4 * i.val + 2 * y.val + x.val + 1 : Nat) : ℚ)⟩

/-- A 100 × 200 RGB image (height 100, width 200), constant pixels. -/
def wideImg : PILImage ℚ := ⟨3, 100, 200, fun _ _ _ => 0⟩

/-- A grayscale (single-channel) 4 × 4 image. -/
def grayImg : PILImage ℚ := ⟨1, 4, 4, fun _ _ _ => 0⟩

/-- A small 2 × 3 RGB image for witnesses. -/
def smallImg : PILImage ℚ := ⟨3, 2, 3, fun _ _ _ => 0⟩

/-- A 1 × 1 RGB image over `Flt`. -/
def unitImgF : PILImage Flt := ⟨3, 1, 1, fun _ _ _ => .val 0⟩

/-- A degenerate pretrained stack over `Flt` whose single module is named
`"21"` and outputs a `(1,1,1,1)` tensor holding a non-finite value: a
corrupted-activation scenario that makes every loss of the loop NaN. -/
def nanModule : Module Flt :=
  ⟨"21", [], fun _ => ⟨1, 1, 1, 1, fun _ _ _ _ => .nan⟩⟩

/-! ## Helper lemmas -/

theorem foldl_add_map_sum {β : Type} [AddCommMonoid α] (f : β → α) :
    ∀ (l : List β) (a : α), l.foldl (fun acc x => acc + f x) a = a + (l.map f).sum
  | [], a => by simp
  | x :: l, a => by
    rw [List.foldl_cons, foldl_add_map_sum f l (a + f x), List.map_cons, List.sum_cons,
      add_assoc]

section LoopLemmas

variable [AddCommMonoid α] [Mul α] [Sub α] [Div α] [NatCast α] {OS : Type}
variable (M : STModel α) (AD : Autodiff α OS) (cw sw : α)

theorem loopIter_succ (n : Nat) (s : LoopSt α OS) :
    loopIter M AD cw sw (n + 1) s = loopStep M AD cw sw (loopIter M AD cw sw n s) := by
  unfold loopIter
  rw [List.range_succ, List.foldl_append, List.foldl_cons, List.foldl_nil]

theorem loopIter_frame (n : Nat) (s : LoopSt α OS) :
    (loopIter M AD cw sw n s).content = s.content ∧
    (loopIter M AD cw sw n s).style = s.style ∧
    (loopIter M AD cw sw n s).content_features = s.content_features ∧
    (loopIter M AD cw sw n s).style_grams = s.style_grams := by
  induction n with
  | zero => exact ⟨rfl, rfl, rfl, rfl⟩
  | succ n ih =>
    rw [loopIter_succ]
    exact ⟨ih.1, ih.2.1, ih.2.2.1, ih.2.2.2⟩

theorem loopStep_losses (s : LoopSt α OS) :
    (loopStep M AD cw sw s).losses
      = s.losses ++ [totalLossSpec M cw sw s.content_features s.style_grams s.generated] := by
  unfold loopStep totalLossSpec
  dsimp only
  rw [foldl_add_map_sum, zero_add]

theorem loopIter_losses (n : Nat) (s : LoopSt α OS) :
    (loopIter M AD cw sw n s).losses
      = s.losses ++ (List.range n).map
          (fun i => totalLossSpec M cw sw s.content_features s.style_grams
            (loopIter M AD cw sw i s).generated) := by
  induction n with
  | zero => simp [loopIter]
  | succ n ih =>
    have hf := loopIter_frame M AD cw sw n s
    rw [loopIter_succ, loopStep_losses, ih, hf.2.2.1, hf.2.2.2, List.range_succ,
      List.map_append, List.map_cons, List.map_nil, List.append_assoc]

theorem loopIter_gen_shape
    (hpres : ∀ os g gr, sameShape ((AD.optStep os g gr).1) g)
    (n : Nat) (s : LoopSt α OS) :
    sameShape (loopIter M AD cw sw n s).generated s.generated := by
  induction n with
  | zero => exact ⟨rfl, rfl, rfl, rfl⟩
  | succ n ih =>
    rw [loopIter_succ]
    have h := hpres (loopIter M AD cw sw n s).opt (loopIter M AD cw sw n s).generated
      (AD.gradOf (loopIter M AD cw sw n s).generated)
    exact ⟨h.1.trans ih.1, h.2.1.trans ih.2.1, h.2.2.1.trans ih.2.2.1,
      h.2.2.2.trans ih.2.2.2⟩

theorem run_image_eq (pretrained : List (Module α)) (ci si : PILImage α)
    (n : Nat) (sw' cw' : α) :
    run_style_transfer pretrained AD (.image ci) (.image si) n sw' cw'
      = .ok
          (toPILImage
            (loopIter (STModel.init pretrained) AD cw' sw' n
              (initSt pretrained AD ci si)).generated,
          (loopIter (STModel.init pretrained) AD cw' sw' n
            (initSt pretrained AD ci si)).losses) := rfl

theorem initSt_losses (pretrained : List (Module α)) (ci si : PILImage α) :
    (initSt pretrained AD ci si).losses = [] := rfl

end LoopLemmas

theorem resizeDims_min_max (m h w : Nat) (hh : 0 < h) (hw : 0 < w) :
    min (resizeDims m h w).1 (resizeDims m h w).2 = m ∧
    max (resizeDims m h w).1 (resizeDims m h w).2 = m * max h w / min h w := by
  unfold resizeDims
  rcases le_or_lt w h with hle | hlt
  · rw [if_pos hle]
    have hdiv : m ≤ m * h / w := (Nat.le_div_iff_mul_le hw).2 (Nat.mul_le_mul_left m hle)
    exact ⟨min_eq_right hdiv,
      by rw [max_eq_left hdiv, max_eq_left hle, min_eq_right hle]⟩
  · have hle' : h ≤ w := le_of_lt hlt
    rw [if_neg (not_le.2 hlt)]
    have hdiv : m ≤ m * w / h := (Nat.le_div_iff_mul_le hh).2 (Nat.mul_le_mul_left m hle')
    exact ⟨min_eq_left hdiv,
      by rw [max_eq_right hdiv, max_eq_right hle', min_eq_left hle']⟩

/-! ## Claim theorems -/

/-- C2: for a batch-1 activation tensor, `gram_matrix` is the `(c, c)`
product of the row-major `(c, h*w)` flattening with its transpose: entry
`(i, j)` is the plain sum over all spatial positions of the products of
channel `i`'s and channel `j`'s activations, with no normalization by element
count, as a pure function of the tensor. -/
theorem gram_matrix_spec (t : Tensor ℚ) (_hn : t.n = 1) (i j : Fin t.c) :
    gram_matrix t = mmul t.view2 (Matrix.transpose t.view2) ∧
    gram_matrix t i j = ∑ y : Fin t.h, ∑ x : Fin t.w, t.at0 i y x * t.at0 j y x :=
  ⟨rfl, gram_matrix_entry t i j⟩

/-- Witness for C2: the spec's synthetic `(2, 2, 2)` activation, whose
hand-computed Gram entry `(0, 1)` is `1*5 + 2*6 + 3*7 + 4*8 = 70`. -/
theorem gram_matrix_spec_witness :
    T0.n = 1 ∧ gram_matrix T0 ⟨0, by decide⟩ ⟨1, by decide⟩ = 70 := by
  refine ⟨rfl, ?_⟩
  rw [(gram_matrix_spec T0 rfl ⟨0, by decide⟩ ⟨1, by decide⟩).2]
  simp [T0, Tensor.at0, Fin.sum_univ_succ]
  norm_num

/-- C10: the Gram matrix of a batch-1 activation tensor is symmetric: it
equals its own transpose, being `M * Mᵀ` for `M` the flattening. -/
theorem gram_matrix_symmetric (t : Tensor ℚ) (_hn : t.n = 1) :
    Matrix.transpose (gram_matrix t) = gram_matrix t := by
  refine Matrix.ext fun i j => ?_
  rw [Matrix.transpose_apply, gram_matrix_entry, gram_matrix_entry]
  exact Finset.sum_congr rfl fun y _ => Finset.sum_congr rfl fun x _ => mul_comm _ _

/-- Witness for C10 at the concrete `(1, 2, 2, 2)` tensor. -/
theorem gram_matrix_symmetric_witness :
    T0.n = 1 ∧ Matrix.transpose (gram_matrix T0) = gram_matrix T0 :=
  ⟨rfl, gram_matrix_symmetric T0 rfl⟩

/-- C5 counterexample: a 100 × 200 image is resized by `load_image` (default
bound 512) to 512 × 1024 — the larger spatial dimension exceeds 512 and the
image is upscaled, because `transforms.Resize(512)` matches the smaller edge
to 512. -/
theorem load_image_exceeds_bound :
    (load_image (.image wideImg) 512 none).map (fun t => (t.h, t.w))
      = .ok (512, 1024) ∧ ¬ (max 512 1024 ≤ 512) :=
  ⟨rfl, by decide⟩

/-- C5 amended: with an integer bound `m`, `load_image` matches the smaller
edge to `m` — upscaling when the image is smaller — and scales the larger
edge by the same ratio with truncating division; only when an explicit
`(sh, sw)` target is given is the output exactly that shape. -/
theorem load_image_resize_spec (img : PILImage ℚ) (m : Nat)
    (hh : 0 < img.h) (hw : 0 < img.w) (sh sw : Nat) :
    min (load_image_img img m none).h (load_image_img img m none).w = m ∧
    max (load_image_img img m none).h (load_image_img img m none).w
      = m * max img.h img.w / min img.h img.w ∧
    (load_image_img img m (some (sh, sw))).h = sh ∧
    (load_image_img img m (some (sh, sw))).w = sw := by
  obtain ⟨h1, h2⟩ := resizeDims_min_max m img.h img.w hh hw
  exact ⟨h1, h2, rfl, rfl⟩

/-- Witness for C5 amended at a 2 × 3 image with bound 4 and target (5, 7). -/
theorem load_image_resize_spec_witness :
    0 < smallImg.h ∧ 0 < smallImg.w ∧
    (min (load_image_img smallImg 4 none).h (load_image_img smallImg 4 none).w = 4 ∧
      max (load_image_img smallImg 4 none).h (load_image_img smallImg 4 none).w
        = 4 * max smallImg.h smallImg.w / min smallImg.h smallImg.w ∧
      (load_image_img smallImg 4 (some (5, 7))).h = 5 ∧
      (load_image_img smallImg 4 (some (5, 7))).w = 7) :=
  ⟨by decide, by decide, load_image_resize_spec smallImg 4 (by decide) (by decide) 5 7⟩

/-- C7 counterexample: a non-image content input makes the pipeline fail with
the underlying library's `TypeError` — not with a `DecodeError`, which the
code never defines or raises. -/
theorem run_notImage_counterexample :
    run_style_transfer ([] : List (Module ℚ)) trivialAD .notImage (.image smallImg) 1 1 1
      = .error .typeError ∧ STError.typeError ≠ STError.decodeError :=
  ⟨rfl, by decide⟩

/-- C7 amended: a non-image argument in either position aborts the procedure
before the optimization loop with the library's `TypeError` (no `DecodeError`
exists in the code, and no decode-failure reason is surfaced). -/
theorem run_notImage_spec {OS : Type} (pretrained : List (Module ℚ))
    (AD : Autodiff ℚ OS) (other : PILInput ℚ) (ci : PILImage ℚ)
    (n : Nat) (sw cw : ℚ) :
    run_style_transfer pretrained AD .notImage other n sw cw = .error .typeError ∧
    run_style_transfer pretrained AD (.image ci) .notImage n sw cw = .error .typeError :=
  ⟨rfl, rfl⟩

/-- C8 counterexample: a single-channel (grayscale) image yields a 1-channel
tensor — `[:3, :, :]` discards surplus channels but never expands to RGB. -/
theorem load_image_gray_counterexample :
    (load_image (.image grayImg) 512 none).map (fun t => t.c) = .ok 1 ∧
    (1 : Nat) ≠ 3 :=
  ⟨rfl, by decide⟩

/-- C8 amended: the loader returns a tensor with a leading batch dimension of
size 1 and `min c 3` channels in `(channels, height, width)` layout — alpha
and extra channels beyond the first three are discarded, images with fewer
than three channels are left as-is — and each kept channel is the matching
channel of the resized image scaled by 1/255. -/
theorem load_image_tensor_spec (img : PILImage ℚ) (m : Nat)
    (shape : Option (Nat × Nat)) :
    (load_image_img img m shape).n = 1 ∧
    (load_image_img img m shape).c = min img.c 3 ∧
    ∀ b i y x, (load_image_img img m none).data b i y x
      = (resizePIL m img).pix (Fin.castLE (min_le_left (resizePIL m img).c 3) i) y x
          / ((255 : Nat) : ℚ) := by
  obtain _ | ⟨sh, sw⟩ := shape
  · exact ⟨rfl, rfl, fun b i y x => rfl⟩
  · exact ⟨rfl, rfl, fun b i y x => rfl⟩

/-- C3: for every step count and every pair of decoded input images — and any
behaviour of the pretrained layers, the gradient and the optimizer — the run
returns an image and records exactly `num_steps` losses, one per loop
iteration: there is no convergence check and no early exit. -/
theorem run_exact_iterations {OS : Type} (pretrained : List (Module ℚ))
    (AD : Autodiff ℚ OS) (ci si : PILImage ℚ) (num_steps : Nat) (sw cw : ℚ) :
    run_style_transfer pretrained AD (.image ci) (.image si) num_steps sw cw
      = .ok
          (toPILImage
            (loopIter (STModel.init pretrained) AD cw sw num_steps
              (initSt pretrained AD ci si)).generated,
          (loopIter (STModel.init pretrained) AD cw sw num_steps
            (initSt pretrained AD ci si)).losses) ∧
    (loopIter (STModel.init pretrained) AD cw sw num_steps
      (initSt pretrained AD ci si)).losses.length = num_steps := by
  refine ⟨run_image_eq AD pretrained ci si num_steps sw cw, ?_⟩
  rw [loopIter_losses, initSt_losses, List.nil_append, List.length_map,
    List.length_range]

/-- C1: at every iteration `i` of the loop, the total loss computed by the
body equals `content_weight * content_loss + style_weight * style_loss`,
where the content loss is the MSE between the generated and the cached
content activations at the designated content layer and the style loss is the
sum over the designated style layers of the MSE between the generated image's
Gram matrix and the cached style Gram matrix — i.e. `totalLossSpec`, a pure
function of the generated tensor at step `i` and the two reference sets
cached before the loop. -/
theorem run_total_loss {OS : Type} (pretrained : List (Module ℚ))
    (AD : Autodiff ℚ OS) (ci si : PILImage ℚ) (num_steps : Nat) (sw cw : ℚ)
    (i : Nat) (hi : i < num_steps) :
    run_style_transfer pretrained AD (.image ci) (.image si) num_steps sw cw
      = .ok
          (toPILImage
            (loopIter (STModel.init pretrained) AD cw sw num_steps
              (initSt pretrained AD ci si)).generated,
          (loopIter (STModel.init pretrained) AD cw sw num_steps
            (initSt pretrained AD ci si)).losses) ∧
    (loopIter (STModel.init pretrained) AD cw sw num_steps
        (initSt pretrained AD ci si)).losses[i]?
      = some
          (totalLossSpec (STModel.init pretrained) cw sw
            (initSt pretrained AD ci si).content_features
            (initSt pretrained AD ci si).style_grams
            (loopIter (STModel.init pretrained) AD cw sw i
              (initSt pretrained AD ci si)).generated) := by
  refine ⟨run_image_eq AD pretrained ci si num_steps sw cw, ?_⟩
  rw [loopIter_losses, initSt_losses, List.nil_append, List.getElem?_map,
    List.getElem?_range hi]
  rfl

/-- Witness for C1: a one-step run over a degenerate pretrained stack. -/
theorem run_total_loss_witness :
    0 < 1 ∧
    (loopIter (STModel.init ([] : List (Module ℚ))) trivialAD 1 1 1
        (initSt [] trivialAD smallImg smallImg)).losses[0]?
      = some
          (totalLossSpec (STModel.init ([] : List (Module ℚ))) 1 1
            (initSt [] trivialAD smallImg smallImg).content_features
            (initSt [] trivialAD smallImg smallImg).style_grams
            (loopIter (STModel.init ([] : List (Module ℚ))) trivialAD 1 1 0
              (initSt [] trivialAD smallImg smallImg)).generated) :=
  ⟨by decide,
    (run_total_loss [] trivialAD smallImg smallImg 1 1 1 0 (by decide)).2⟩

/-- C6: for every content and style image — whatever the style image's
resolution or aspect ratio — the style tensor is resized to the content
tensor's spatial dimensions before the loop, the generated tensor keeps the
content tensor's height and width through every optimizer step (the optimizer
update is shape-preserving, as torch's in-place Adam step is), and the final
image has exactly the loaded content tensor's `(height, width)`. -/
theorem run_output_dims {OS : Type} (pretrained : List (Module ℚ))
    (AD : Autodiff ℚ OS)
    (hpres : ∀ os g gr, sameShape ((AD.optStep os g gr).1) g)
    (ci si : PILImage ℚ) (num_steps : Nat) (sw cw : ℚ) :
    run_style_transfer pretrained AD (.image ci) (.image si) num_steps sw cw
      = .ok
          (toPILImage
            (loopIter (STModel.init pretrained) AD cw sw num_steps
              (initSt pretrained AD ci si)).generated,
          (loopIter (STModel.init pretrained) AD cw sw num_steps
            (initSt pretrained AD ci si)).losses) ∧
    (toPILImage
        (loopIter (STModel.init pretrained) AD cw sw num_steps
          (initSt pretrained AD ci si)).generated).h
      = (load_image_img ci 512 none).h ∧
    (toPILImage
        (loopIter (STModel.init pretrained) AD cw sw num_steps
          (initSt pretrained AD ci si)).generated).w
      = (load_image_img ci 512 none).w ∧
    (load_image_img si 512
        (some ((load_image_img ci 512 none).h, (load_image_img ci 512 none).w))).h
      = (load_image_img ci 512 none).h ∧
    (load_image_img si 512
        (some ((load_image_img ci 512 none).h, (load_image_img ci 512 none).w))).w
      = (load_image_img ci 512 none).w := by
  have hshape := loopIter_gen_shape (STModel.init pretrained) AD cw sw hpres
    num_steps (initSt pretrained AD ci si)
  exact ⟨run_image_eq AD pretrained ci si num_steps sw cw,
    hshape.2.2.1, hshape.2.2.2, rfl, rfl⟩

/-- Witness for C6: a two-step run with the do-nothing (shape-preserving)
optimizer oracle, content 2 × 3, style 100 × 200. -/
theorem run_output_dims_witness :
    run_style_transfer ([] : List (Module ℚ)) trivialAD (.image smallImg)
        (.image wideImg) 2 1 1
      = .ok
          (toPILImage
            (loopIter (STModel.init ([] : List (Module ℚ))) trivialAD 1 1 2
              (initSt [] trivialAD smallImg wideImg)).generated,
          (loopIter (STModel.init ([] : List (Module ℚ))) trivialAD 1 1 2
            (initSt [] trivialAD smallImg wideImg)).losses) ∧
    (toPILImage
        (loopIter (STModel.init ([] : List (Module ℚ))) trivialAD 1 1 2
          (initSt [] trivialAD smallImg wideImg)).generated).h
      = (load_image_img smallImg 512 none).h ∧
    (toPILImage
        (loopIter (STModel.init ([] : List (Module ℚ))) trivialAD 1 1 2
          (initSt [] trivialAD smallImg wideImg)).generated).w
      = (load_image_img smallImg 512 none).w ∧
    (load_image_img wideImg 512
        (some ((load_image_img smallImg 512 none).h, (load_image_img smallImg 512 none).w))).h
      = (load_image_img smallImg 512 none).h ∧
    (load_image_img wideImg 512
        (some ((load_image_img smallImg 512 none).h, (load_image_img smallImg 512 none).w))).w
      = (load_image_img smallImg 512 none).w :=
  run_output_dims [] trivialAD (fun _ _ _ => ⟨rfl, rfl, rfl, rfl⟩)
    smallImg wideImg 2 1 1

/-- C9: the wrapper freezes every extractor parameter (`requires_grad` is
`False` on all of them after `__init__`), and the loop never mutates the
loaded content and style tensors or the cached reference activations and
style Gram matrices — the generated tensor (with the optimizer state and the
loss trace) is the only state the iterations update; gradients reach only the
input tensor through the `gradOf` oracle. -/
theorem run_frame_frozen {OS : Type} (pretrained : List (Module ℚ))
    (AD : Autodiff ℚ OS) (cw sw : ℚ) (n : Nat) (s : LoopSt ℚ OS) :
    ((STModel.init pretrained).vgg.all
        fun m => m.params.all fun p => !p.requires_grad) = true ∧
    (loopIter (STModel.init pretrained) AD cw sw n s).content = s.content ∧
    (loopIter (STModel.init pretrained) AD cw sw n s).style = s.style ∧
    (loopIter (STModel.init pretrained) AD cw sw n s).content_features
      = s.content_features ∧
    (loopIter (STModel.init pretrained) AD cw sw n s).style_grams
      = s.style_grams := by
  refine ⟨?_, loopIter_frame (STModel.init pretrained) AD cw sw n s⟩
  simp [STModel.init, List.all_eq_true]

/-- C4 counterexample: a session whose total loss is non-finite (NaN) from the
very first iteration still executes all three requested iterations and
returns an image — nothing stops early and no `DivergenceError` is reported
(the code has no finiteness check and defines no such error). -/
theorem run_nan_counterexample :
    (run_style_transfer [nanModule] trivialADF (.image unitImgF) (.image unitImgF)
          3 (.val 1000000) (.val 1)).map (fun out => out.2)
      = .ok [Flt.nan, Flt.nan, Flt.nan] ∧
    Flt.nan.isFinite = false :=
  ⟨rfl, rfl⟩

/-- C4 amended: even when a loss computed during the loop is non-finite
(NaN/Inf), `run_style_transfer` neither stops early nor raises anything: all
`num_steps` iterations execute and an image is returned. -/
theorem run_nonfinite_no_abort {OS : Type} (pretrained : List (Module Flt))
    (AD : Autodiff Flt OS) (ci si : PILImage Flt) (num_steps : Nat)
    (sw cw : Flt)
    (_hnf : ∃ L ∈ (loopIter (STModel.init pretrained) AD cw sw num_steps
        (initSt pretrained AD ci si)).losses, L.isFinite = false) :
    run_style_transfer pretrained AD (.image ci) (.image si) num_steps sw cw
      = .ok
          (toPILImage
            (loopIter (STModel.init pretrained) AD cw sw num_steps
              (initSt pretrained AD ci si)).generated,
          (loopIter (STModel.init pretrained) AD cw sw num_steps
            (initSt pretrained AD ci si)).losses) ∧
    (loopIter (STModel.init pretrained) AD cw sw num_steps
      (initSt pretrained AD ci si)).losses.length = num_steps := by
  refine ⟨run_image_eq AD pretrained ci si num_steps sw cw, ?_⟩
  rw [loopIter_losses, initSt_losses, List.nil_append, List.length_map,
    List.length_range]

/-- Witness for C4 amended, at the NaN session of the counterexample. -/
theorem run_nonfinite_no_abort_witness :
    (∃ L ∈ (loopIter (STModel.init [nanModule]) trivialADF (.val 1)
        (.val 1000000) 3 (initSt [nanModule] trivialADF unitImgF unitImgF)).losses,
      L.isFinite = false) ∧
    (loopIter (STModel.init [nanModule]) trivialADF (.val 1) (.val 1000000) 3
      (initSt [nanModule] trivialADF unitImgF unitImgF)).losses.length = 3 :=
  ⟨⟨Flt.nan, by decide⟩,
    (run_nonfinite_no_abort [nanModule] trivialADF unitImgF unitImgF 3
      (.val 1000000) (.val 1) ⟨Flt.nan, by decide⟩).2⟩

end StyleTransfer
